import Mathlib

/-!
Shallow embedding of `vacation_clip_bot.py` (ClipBot), covering:
- the scene-detection cache (`get_cache_path`, `detect_scenes`),
- the audio mixer (`process_audio`),
- the per-scene clip renderer loop of `process_video`,
- the clip counting of `process_directory`,
- the resolution table of `main`.

Times (seconds) are modelled as `ℚ`.  Filesystem and library effects are
made explicit: `detect_scenes` takes the state of the cache directory as a
function from cache paths to file contents and returns, next to its scene
list, the trace of effects it performed; `process_video` takes, per scene
index, whether the output file already exists and whether rendering that
scene succeeds (the per-scene `try` block), and `moviepy` audio/video clip
objects are modelled as terms recording the operations applied to them.
-/

namespace ClipBot

/-- A detected scene: `(start, end)` timestamps in seconds
(`scene[0].get_seconds()`, `scene[1].get_seconds()`). -/
structure Scene where
  start : ℚ
  stop : ℚ
deriving DecidableEq, Repr

/-- The cache path computed by `get_cache_path` (line 67): the directory
`os.path.join(os.path.dirname(video_path), ".clipbot_cache")`, the base name
of the video, and the modification time rendered by `f"{st_mtime:.0f}"`,
i.e. rounded to whole seconds.  (Python's `"%.0f"` rounds ties to even while
`round` rounds ties up; no claim below depends on exact-half mtimes.) -/
structure CachePath where
  cacheDir : String
  base : String
  mtimeKey : ℤ
deriving DecidableEq, Repr

/-- Filesystem / library effects performed by the scene-detection layer. -/
inductive Effect where
  | mkdir (dir : String)
  | statSource (path : String)
  | cacheRead (path : CachePath)
  | detect
  | cacheWrite (path : CachePath) (ok : Bool)
deriving DecidableEq, Repr

/-- `get_cache_path` (lines 67-76): absolute-path handling aside, the path is
derived from the video's directory, base name, and whole-second mtime. -/
def get_cache_path (videoDir base : String) (mtime : ℚ) : CachePath :=
  { cacheDir := videoDir ++ "/.clipbot_cache"
    base := base
    mtimeKey := round mtime }

/-- The side effects of `get_cache_path`: it unconditionally runs
`os.makedirs(cache_dir, exist_ok=True)` (line 71) and `os.stat(video_path)`
(line 74) before any caller consults the cache flag. -/
def get_cache_path_effects (videoDir base : String) : List Effect :=
  [Effect.mkdir (videoDir ++ "/.clipbot_cache"),
   Effect.statSource (videoDir ++ "/" ++ base)]

/-- State of the on-disk scene cache: for each cache path,
`none` = no file there (`os.path.exists` is false);
`some (Except.ok scenes)` = a file that unpickles to `scenes`;
`some (Except.error ())` = a file whose read/unpickle raises. -/
structure CacheFS where
  entries : CachePath → Option (Except Unit (List Scene))

/-- `detect_scenes` (lines 78-108).  `detected` is the scene list the
detection library would produce for this video, and `writeOk` whether the
`pickle.dump` of a fresh result would succeed.  Returns the scene list
together with the trace of effects performed. -/
def detect_scenes (videoDir base : String) (mtime : ℚ) (use_cache : Bool)
    (fs : CacheFS) (detected : List Scene) (writeOk : Bool) :
    List Scene × List Effect :=
  let cp := get_cache_path videoDir base mtime
  let pre := get_cache_path_effects videoDir base
  match use_cache, fs.entries cp with
  | true, some (Except.ok scenes) =>
      -- cache hit: unpickles and returns without running detection
      (scenes, pre ++ [Effect.cacheRead cp])
  | true, some (Except.error _) =>
      -- read/unpickle failed: warn (line 89) and fall through to detection
      (detected, pre ++ [Effect.cacheRead cp, Effect.detect,
                         Effect.cacheWrite cp writeOk])
  | true, none =>
      (detected, pre ++ [Effect.detect, Effect.cacheWrite cp writeOk])
  | false, _ =>
      -- caching disabled: no read even if an entry exists, and no write
      (detected, pre ++ [Effect.detect])

/-- A `moviepy` audio clip, modelled as the term of operations applied to an
underlying source track (`source j`): `volumex`, `audio_normalize`,
`audio_fx highpass=f=200`, `audio_fx compand` (dynamic-range compression),
`audio_fadeout`, `audio_fadein`. -/
inductive AudioStream where
  | source (j : ℕ)
  | volumex (a : AudioStream) (factor : ℚ)
  | normalize (a : AudioStream) (target : ℤ)
  | highpass (a : AudioStream) (freq : ℕ)
  | compand (a : AudioStream)
  | fadeout (a : AudioStream) (d : ℚ)
  | fadein (a : AudioStream) (d : ℚ)
deriving DecidableEq, Repr

/-- Result of `process_audio`: either a bare stream (the early return of the
no-original-audio branch, line 117), a `CompositeAudioClip` over the
`audio_clips` list (line 155), or Python `None`. -/
inductive AudioResult where
  | single (a : AudioStream)
  | composite (clips : List AudioStream)
  | nothing
deriving DecidableEq, Repr

/-- Whether a `highpass` filter occurs anywhere in the stream's history. -/
def usesHighpass : AudioStream → Bool
  | .source _ => false
  | .volumex a _ => usesHighpass a
  | .normalize a _ => usesHighpass a
  | .highpass _ _ => true
  | .compand a => usesHighpass a
  | .fadeout a _ => usesHighpass a
  | .fadein a _ => usesHighpass a

/-- Whether source track `j` occurs anywhere in the stream's history. -/
def usesSource (j : ℕ) : AudioStream → Bool
  | .source k => j == k
  | .volumex a _ => usesSource j a
  | .normalize a _ => usesSource j a
  | .highpass a _ => usesSource j a
  | .compand a => usesSource j a
  | .fadeout a _ => usesSource j a
  | .fadein a _ => usesSource j a

/-- The outermost `volumex` weight of a stream, if any: the relative volume
weighting applied last, at compositing time (lines 150 and 152). -/
def outerWeight : AudioStream → Option ℚ
  | .volumex _ q => some q
  | _ => none

/-- The component streams of an audio result. -/
def resultStreams : AudioResult → List AudioStream
  | .single a => [a]
  | .composite cs => cs
  | .nothing => []

/-- Whether `process_video` attaches an audio track to the output clip
(lines 237-240): `set_audio` when the mixer returned something truthy,
`without_audio` when it returned `None`. -/
def attachesAudio : AudioResult → Bool
  | .nothing => false
  | _ => true

/-- `process_audio` (lines 110-159).  `videoAudio` is `video_clip.audio`
(`none` when the video has no audio track), `music` the optional
`AudioFileClip`, `volume` the music volume, `mute` the `mute_original`
flag. -/
def process_audio (videoAudio music : Option AudioStream) (volume : ℚ)
    (mute : Bool) : AudioResult :=
  match videoAudio with
  | none =>
    -- line 114: no original audio track
    match music with
    | some m => AudioResult.single ((m.volumex volume).normalize (-20))
    | none => AudioResult.nothing
  | some va =>
    -- line 122: normalize dialogue unless muted
    let original : Option AudioStream :=
      if mute then none else some (va.normalize (-12))
    -- lines 128-136: scale, normalize and high-pass the music
    let music_audio : Option AudioStream :=
      music.map fun m => ((m.volumex volume).normalize (-20)).highpass 200
    -- lines 141-145: compress dialogue unless muted
    let original : Option AudioStream :=
      if mute then original else original.map AudioStream.compand
    -- lines 148-152: build the mix list with fades and relative weights
    let audio_clips : List AudioStream :=
      (match original with
       | some oa => [((oa.fadeout (1/2)).fadein (1/2)).volumex
                       (if mute then 4/5 else 1)]
       | none => []) ++
      (match music_audio with
       | some ma => [((ma.fadeout (1/2)).fadein (1/2)).volumex
                       (if mute then 1 else 1/5)]
       | none => [])
    -- lines 154-157
    if audio_clips.isEmpty then AudioResult.nothing
    else AudioResult.composite audio_clips

/-- The CLI resolution choices of `main` (argparse `choices`, line 345). -/
inductive Resolution where
  | p480
  | p720
  | p1080
  | original
deriving DecidableEq, Repr

/-- The resolution-to-dimensions conversion of `main` (lines 357-365):
`original` maps to `None`, the others through `res_map`. -/
def resolutionDims : Resolution → Option (ℕ × ℕ)
  | .p480 => some (854, 480)
  | .p720 => some (1280, 720)
  | .p1080 => some (1920, 1080)
  | .original => none

/-- The resize step of `process_video` (lines 243-244): resize exactly when a
target resolution is set and the clip's dimensions differ from it.  Returns
the output dimensions and whether `resize` was invoked. -/
def applyResize (w h : ℕ) (resolution : Option (ℕ × ℕ)) : (ℕ × ℕ) × Bool :=
  match resolution with
  | some (tw, th) =>
      if w ≠ tw ∨ h ≠ th then ((tw, th), true) else ((w, h), false)
  | none => ((w, h), false)

/-- Shared rendering parameters of `process_video`. -/
structure Params where
  max_clip : ℚ
  fade : ℚ
  volume : ℚ
  mute_original : Bool
  resolution : Option (ℕ × ℕ)
  use_cache : Bool

/-- Per-video environment: the video's original audio track (if any), the
loaded music clip (`none` when absent or its load failed, line 199), the
source frame dimensions, and per scene index whether the output file already
exists (line 206) and whether the render body of the `try` block at lines
211-262 succeeds for that scene. -/
structure VideoEnv where
  videoAudio : Option AudioStream
  music : Option AudioStream
  srcW : ℕ
  srcH : ℕ
  outputExists : ℕ → Bool
  renderOk : ℕ → Bool

/-- A successfully rendered clip: its (clamped) time bounds, the fade-in and
fade-out durations applied (lines 231-233), the mixed audio attached
(lines 236-240), and the output dimensions after the resize step. -/
structure RenderedClip where
  start : ℚ
  stop : ℚ
  fadeInDur : ℚ
  fadeOutDur : ℚ
  audio : AudioResult
  width : ℕ
  height : ℕ
  resized : Bool
deriving DecidableEq, Repr

/-- Outcome of one iteration of the scene loop of `process_video`
(lines 202-264). -/
inductive SceneOutcome where
  | cached
  | skippedShort
  | rendered (clip : RenderedClip)
  | renderFailed
deriving DecidableEq, Repr

/-- The maximum-duration clamp of `process_video` (lines 221-223): the end
time used for the sub-clip, `start + max_clip` when the scene runs over. -/
def clampEnd (max_clip : ℚ) (scene : Scene) : ℚ :=
  if scene.stop - scene.start > max_clip then scene.start + max_clip
  else scene.stop

/-- One iteration of the scene loop of `process_video` for scene index `i`
(0-based; the output file is `{base}_clip{i+1}.mp4`):
reuse a pre-existing output when caching is on (lines 206-209), skip scenes
under 1 second (line 217), clamp the end to `start + max_clip` (lines
222-223), then fade, mix audio, resize and encode inside the `try` block —
`env.renderOk i` tells whether that block runs to completion. -/
def sceneStep (p : Params) (env : VideoEnv) (i : ℕ) (scene : Scene) :
    SceneOutcome :=
  if env.outputExists i && p.use_cache then
    SceneOutcome.cached
  else if scene.stop - scene.start < 1 then
    SceneOutcome.skippedShort
  else if env.renderOk i then
    SceneOutcome.rendered
      { start := scene.start
        stop := clampEnd p.max_clip scene
        fadeInDur := min p.fade ((clampEnd p.max_clip scene - scene.start) / 4)
        fadeOutDur := min p.fade ((clampEnd p.max_clip scene - scene.start) / 4)
        audio := process_audio env.videoAudio env.music p.volume p.mute_original
        width := (applyResize env.srcW env.srcH p.resolution).1.1
        height := (applyResize env.srcW env.srcH p.resolution).1.2
        resized := (applyResize env.srcW env.srcH p.resolution).2 }
  else
    SceneOutcome.renderFailed

/-- Whether a scene-loop outcome appends an output path to `output_files`
(lines 208 and 261). -/
def emitsOutput : SceneOutcome → Bool
  | .cached => true
  | .rendered _ => true
  | .skippedShort => false
  | .renderFailed => false

/-- The scene loop of `process_video`, accumulating the indices of the
scenes whose output paths end up in `output_files`, starting at index `i`. -/
def renderLoop (p : Params) (env : VideoEnv) : ℕ → List Scene → List ℕ
  | _, [] => []
  | i, sc :: rest =>
      if emitsOutput (sceneStep p env i sc) then
        i :: renderLoop p env (i + 1) rest
      else
        renderLoop p env (i + 1) rest

/-- `process_video` (lines 161-266), restricted to its scene loop: returns
the indices of the scenes for which an output file path is returned. -/
def process_video (p : Params) (env : VideoEnv) (scenes : List Scene) :
    List ℕ :=
  renderLoop p env 0 scenes

/-- `process_directory` (lines 268-321), restricted to its accumulation:
`total_clips += len(clips)` over the videos it walks (line 315). -/
def process_directory (p : Params) (videos : List (VideoEnv × List Scene)) :
    ℕ :=
  (videos.map fun v => (process_video p v.1 v.2).length).sum

/-- The processed music stream as it enters the `audio_clips` mix (line 152):
scaled, normalized, high-passed, faded, and weighted `1.0` when the original
is muted and `0.2` otherwise. -/
def musicMixStream (m : AudioStream) (volume : ℚ) (mute : Bool) :
    AudioStream :=
  AudioStream.volumex
    (AudioStream.fadein
      (AudioStream.fadeout
        (AudioStream.highpass
          (AudioStream.normalize (AudioStream.volumex m volume) (-20)) 200)
        (1/2))
      (1/2))
    (if mute then 1 else 1/5)

/-- The processed dialogue stream as it enters the `audio_clips` mix
(line 150), present only when the original is not muted. -/
def dialogueMixStream (va : AudioStream) : AudioStream :=
  AudioStream.volumex
    (AudioStream.fadein
      (AudioStream.fadeout
        (AudioStream.compand (AudioStream.normalize va (-12)))
        (1/2))
      (1/2))
    1

/-- Parameters of the spec's scenario: `max-clip = 12s`, defaults elsewhere. -/
def scenarioParams : Params :=
  { max_clip := 12
    fade := 1/2
    volume := 1/5
    mute_original := false
    resolution := some (1280, 720)
    use_cache := true }

/-- A fresh-run environment: no music, no pre-existing outputs, every render
succeeds. -/
def scenarioEnv : VideoEnv :=
  { videoAudio := none
    music := none
    srcW := 1280
    srcH := 720
    outputExists := fun _ => false
    renderOk := fun _ => true }

/-- The spec's 3-scene video: durations 0.5s, 8s and 20s. -/
def scenarioScenes : List Scene := [⟨0, 1/2⟩, ⟨1, 9⟩, ⟨10, 30⟩]

/-- The clip rendered for the third scenario scene: truncated to 12 seconds
from its detected start. -/
def scenarioClip3 : RenderedClip :=
  { start := 10
    stop := 22
    fadeInDur := 1/2
    fadeOutDur := 1/2
    audio := AudioResult.nothing
    width := 1280
    height := 720
    resized := false }

/-- Two distinct modification times of the same file, 0.1s apart within the
same whole second. -/
def mtimeOld : ℚ := 1003 / 10

/-- See `mtimeOld`. -/
def mtimeNew : ℚ := 1004 / 10

/-- A cache directory holding one scene list, pickled under the key derived
from `mtimeOld`. -/
def staleFS : CacheFS :=
  { entries := fun cp =>
      if cp = get_cache_path "/videos" "trip.mp4" mtimeOld then
        some (Except.ok [⟨0, 5⟩])
      else none }

/-- An empty cache directory. -/
def emptyFS : CacheFS := { entries := fun _ => none }

/-- A cache directory whose single entry fails to unpickle. -/
def corruptFS : CacheFS :=
  { entries := fun cp =>
      if cp = get_cache_path "/videos" "trip.mp4" mtimeOld then
        some (Except.error ())
      else none }

/-- Three well-formed scenes of durations 2s, 2s and 3s. -/
def fxScenes : List Scene := [⟨0, 2⟩, ⟨3, 5⟩, ⟨6, 9⟩]

/-- An environment where rendering scene index 1 raises and the rest
succeed. -/
def fxEnvFail : VideoEnv :=
  { scenarioEnv with renderOk := fun j => !(j == 1) }

/-- An environment where the output file for scene index 0 already exists. -/
def fxEnvExists : VideoEnv :=
  { scenarioEnv with outputExists := fun j => j == 0 }

/-- Scenario parameters with target resolution 1080p. -/
def fx1080Params : Params :=
  { scenarioParams with resolution := resolutionDims Resolution.p1080 }

/-- Scenario parameters with the original audio muted. -/
def fxMuteParams : Params :=
  { scenarioParams with mute_original := true }

/-- The clip rendered for the third scenario scene under `fx1080Params`:
resized to 1920×1080. -/
def fxClip1080 : RenderedClip :=
  { scenarioClip3 with width := 1920, height := 1080, resized := true }

/-- The scene loop appends at most one output per scene. -/
theorem renderLoop_length_le (p : Params) (env : VideoEnv) :
    ∀ (scs : List Scene) (i : ℕ),
      (renderLoop p env i scs).length ≤ scs.length := by
  intro scs
  induction scs with
  | nil => intro i; simp [renderLoop]
  | cons sc rest ih =>
    intro i
    rw [renderLoop]
    by_cases hb : emitsOutput (sceneStep p env i sc) = true
    · rw [if_pos hb]
      simpa using Nat.succ_le_succ (ih (i + 1))
    · rw [if_neg hb]
      exact le_trans (ih (i + 1)) (Nat.le_succ _)

/-- Membership in the scene loop's output list: exactly the indices whose
scene's outcome emits an output. -/
theorem mem_renderLoop_iff (p : Params) (env : VideoEnv) (o : ℕ) :
    ∀ (scs : List Scene) (i : ℕ),
      o ∈ renderLoop p env i scs ↔
        ∃ j, ∃ h : j < scs.length,
          o = i + j ∧
          emitsOutput (sceneStep p env (i + j) (scs.get ⟨j, h⟩)) = true := by
  intro scs
  induction scs with
  | nil => intro i; simp [renderLoop]
  | cons sc rest ih =>
    intro i
    constructor
    · intro hm
      rw [renderLoop] at hm
      by_cases hb : emitsOutput (sceneStep p env i sc) = true
      · rw [if_pos hb] at hm
        rcases List.mem_cons.mp hm with h0 | h1
        · refine ⟨0, Nat.succ_pos _, by omega, ?_⟩
          simpa [h0] using hb
        · rcases (ih (i + 1)).mp h1 with ⟨j, hj, ho, he⟩
          refine ⟨j + 1, by simp only [List.length_cons]; omega, by omega, ?_⟩
          rw [show i + (j + 1) = i + 1 + j by omega]
          simpa using he
      · rw [if_neg hb] at hm
        rcases (ih (i + 1)).mp hm with ⟨j, hj, ho, he⟩
        refine ⟨j + 1, by simp only [List.length_cons]; omega, by omega, ?_⟩
        rw [show i + (j + 1) = i + 1 + j by omega]
        simpa using he
    · rintro ⟨j, hj, ho, he⟩
      rw [renderLoop]
      cases j with
      | zero =>
        simp only [List.get] at he
        have hsc : emitsOutput (sceneStep p env i sc) = true := by
          simpa using he
        rw [if_pos hsc]
        exact List.mem_cons.mpr (Or.inl (by omega))
      | succ j' =>
        have he' :
            emitsOutput
              (sceneStep p env (i + 1 + j')
                (rest.get ⟨j', by simp only [List.length_cons] at hj; omega⟩)) =
              true := by
          rw [show i + 1 + j' = i + (j' + 1) by omega]
          simpa using he
        have hmem : o ∈ renderLoop p env (i + 1) rest :=
          (ih (i + 1)).mpr
            ⟨j', by simp only [List.length_cons] at hj; omega, by omega, he'⟩
        by_cases hb : emitsOutput (sceneStep p env i sc) = true
        · rw [if_pos hb]
          exact List.mem_cons_of_mem _ hmem
        · rw [if_neg hb]
          exact hmem

/-- Changing `renderOk` away from index `k` does not change scene `k`'s
outcome. -/
theorem sceneStep_update_renderOk (p : Params) (env : VideoEnv)
    (f : ℕ → Bool) (k : ℕ) (sc : Scene) (h : f k = env.renderOk k) :
    sceneStep p { env with renderOk := f } k sc = sceneStep p env k sc := by
  simp only [sceneStep, h]

/-- Characterization of a successfully rendered scene: its clip's fields as
computed by lines 211-244. -/
theorem sceneStep_rendered_fields (p : Params) (env : VideoEnv) (i : ℕ)
    (sc : Scene) (c : RenderedClip)
    (h : sceneStep p env i sc = SceneOutcome.rendered c) :
    c.start = sc.start ∧
    c.stop = clampEnd p.max_clip sc ∧
    c.fadeInDur = min p.fade ((clampEnd p.max_clip sc - sc.start) / 4) ∧
    c.fadeOutDur = c.fadeInDur ∧
    c.audio = process_audio env.videoAudio env.music p.volume p.mute_original ∧
    c.width = (applyResize env.srcW env.srcH p.resolution).1.1 ∧
    c.height = (applyResize env.srcW env.srcH p.resolution).1.2 ∧
    c.resized = (applyResize env.srcW env.srcH p.resolution).2 := by
  rw [sceneStep] at h
  by_cases h1 : (env.outputExists i && p.use_cache) = true
  · rw [if_pos h1] at h
    cases h
  · rw [if_neg h1] at h
    by_cases h2 : sc.stop - sc.start < 1
    · rw [if_pos h2] at h
      cases h
    · rw [if_neg h2] at h
      by_cases h3 : env.renderOk i = true
      · rw [if_pos h3] at h
        injection h with h
        subst h
        exact ⟨rfl, rfl, rfl, rfl, rfl, rfl, rfl, rfl⟩
      · rw [if_neg h3] at h
        cases h

/-- C10: for every video file processed, the hidden `.clipbot_cache`
directory beside the source file is created (if absent) even when caching
is disabled: `get_cache_path` unconditionally creates the directory and
stats the source file before the cache-enable flag is consulted, so a
cache-disabled run still performs the `mkdir` (and the `stat`). -/
theorem c10_cache_dir_created_even_when_cache_disabled
    (videoDir base : String) (mtime : ℚ) (use_cache : Bool) (fs : CacheFS)
    (detected : List Scene) (writeOk : Bool) :
    Effect.mkdir (videoDir ++ "/.clipbot_cache") ∈
      (detect_scenes videoDir base mtime use_cache fs detected writeOk).2 ∧
    Effect.statSource (videoDir ++ "/" ++ base) ∈
      (detect_scenes videoDir base mtime use_cache fs detected writeOk).2 ∧
    (detect_scenes videoDir base mtime false fs detected writeOk).2 =
      get_cache_path_effects videoDir base ++ [Effect.detect] := by
  have hsplit : ∀ (u : Bool),
      Effect.mkdir (videoDir ++ "/.clipbot_cache") ∈
        (detect_scenes videoDir base mtime u fs detected writeOk).2 ∧
      Effect.statSource (videoDir ++ "/" ++ base) ∈
        (detect_scenes videoDir base mtime u fs detected writeOk).2 := by
    intro u
    rcases hfs : fs.entries (get_cache_path videoDir base mtime) with _ | e
    · cases u <;> simp [detect_scenes, hfs, get_cache_path_effects]
    · rcases e with e | s <;> cases u <;>
        simp [detect_scenes, hfs, get_cache_path_effects]
  refine ⟨(hsplit use_cache).1, (hsplit use_cache).2, ?_⟩
  rcases hfs : fs.entries (get_cache_path videoDir base mtime) with _ | e
  · simp [detect_scenes, hfs, get_cache_path_effects]
  · rcases e with e | s <;> simp [detect_scenes, hfs, get_cache_path_effects]

/-- C7: when caching is enabled, a failing cache read or deserialization is
logged and falls back to a fresh detection pass — the error is not
propagated and the detection result is returned; after a fresh detection
the result is written to the cache path, and a failing write changes
neither the returned scene list nor raises. -/
theorem c7_cache_read_write_failures_nonfatal
    (videoDir base : String) (mtime : ℚ) (fs : CacheFS)
    (detected : List Scene) (writeOk : Bool) :
    (fs.entries (get_cache_path videoDir base mtime) =
        some (Except.error ()) →
      detect_scenes videoDir base mtime true fs detected writeOk =
        (detected,
         get_cache_path_effects videoDir base ++
           [Effect.cacheRead (get_cache_path videoDir base mtime),
            Effect.detect,
            Effect.cacheWrite (get_cache_path videoDir base mtime)
              writeOk])) ∧
    (fs.entries (get_cache_path videoDir base mtime) = none →
      detect_scenes videoDir base mtime true fs detected writeOk =
        (detected,
         get_cache_path_effects videoDir base ++
           [Effect.detect,
            Effect.cacheWrite (get_cache_path videoDir base mtime)
              writeOk])) ∧
    (detect_scenes videoDir base mtime true fs detected false).1 =
      (detect_scenes videoDir base mtime true fs detected true).1 := by
  refine ⟨?_, ?_, ?_⟩
  · intro hfs
    simp [detect_scenes, hfs]
  · intro hfs
    simp [detect_scenes, hfs]
  · rcases hfs : fs.entries (get_cache_path videoDir base mtime)
      with _ | e
    · simp [detect_scenes, hfs]
    · rcases e with e | s <;> simp [detect_scenes, hfs]

/-- C7 witness: an empty cache directory forces a fresh pass whose result is
written back. -/
theorem c7_witness :
    detect_scenes "/videos" "trip.mp4" mtimeOld true emptyFS [⟨1, 2⟩]
        false =
      ([⟨1, 2⟩],
       get_cache_path_effects "/videos" "trip.mp4" ++
         [Effect.detect,
          Effect.cacheWrite (get_cache_path "/videos" "trip.mp4" mtimeOld)
            false]) :=
  (c7_cache_read_write_failures_nonfatal "/videos" "trip.mp4" mtimeOld
    emptyFS [⟨1, 2⟩] false).2.1 rfl

/-- C2 counterexample: changing the source file's modification time does NOT
always change the derived cache path — the cache key keeps only whole
seconds of the mtime (`f"{st_mtime:.0f}"`), so a 0.1s mtime change yields
the same cache path and the stale cached scene list is still returned, with
no fresh detection run. -/
theorem c2_counterexample :
    mtimeOld ≠ mtimeNew ∧
    get_cache_path "/videos" "trip.mp4" mtimeNew =
      get_cache_path "/videos" "trip.mp4" mtimeOld ∧
    (detect_scenes "/videos" "trip.mp4" mtimeNew true staleFS [⟨1, 2⟩]
        true).1 = [⟨0, 5⟩] ∧
    Effect.detect ∉
      (detect_scenes "/videos" "trip.mp4" mtimeNew true staleFS [⟨1, 2⟩]
        true).2 := by
  have hkey : round mtimeNew = round mtimeOld := by
    norm_num [mtimeOld, mtimeNew, round_eq]
  have hpath : get_cache_path "/videos" "trip.mp4" mtimeNew =
      get_cache_path "/videos" "trip.mp4" mtimeOld := by
    simp [get_cache_path, hkey]
  have hentry :
      staleFS.entries (get_cache_path "/videos" "trip.mp4" mtimeNew) =
        some (Except.ok [⟨0, 5⟩]) := by
    rw [hpath]
    simp [staleFS]
  refine ⟨by norm_num [mtimeOld, mtimeNew], hpath, ?_, ?_⟩
  · simp [detect_scenes, hentry]
  · simp [detect_scenes, hentry, get_cache_path_effects]

/-- C2 (amended): scene-detection results are cached keyed by the video's
path plus its modification time rounded to whole seconds.  When caching is
enabled and an entry exists at the derived path, `detect_scenes`
deserializes and returns it without running detection; changing the mtime
so that its whole-second rendering changes changes the derived cache path,
and with no entry at the new path detection runs afresh.  (A sub-second
mtime change can leave the path unchanged, see the counterexample.) -/
theorem c2_amended_cache_key (videoDir base : String) (mtime : ℚ)
    (fs : CacheFS) (detected : List Scene) (writeOk : Bool) :
    (∀ scenes,
      fs.entries (get_cache_path videoDir base mtime) =
          some (Except.ok scenes) →
        detect_scenes videoDir base mtime true fs detected writeOk =
          (scenes,
           get_cache_path_effects videoDir base ++
             [Effect.cacheRead (get_cache_path videoDir base mtime)])) ∧
    (∀ mtime2 : ℚ, round mtime ≠ round mtime2 →
      get_cache_path videoDir base mtime ≠
        get_cache_path videoDir base mtime2) ∧
    (fs.entries (get_cache_path videoDir base mtime) = none →
      (detect_scenes videoDir base mtime true fs detected writeOk).1 =
          detected ∧
        Effect.detect ∈
          (detect_scenes videoDir base mtime true fs detected writeOk).2) := by
  refine ⟨?_, ?_, ?_⟩
  · intro scenes hfs
    simp [detect_scenes, hfs]
  · intro m2 hne heq
    exact hne (congrArg CachePath.mtimeKey heq)
  · intro hfs
    constructor
    · simp [detect_scenes, hfs]
    · simp [detect_scenes, hfs, get_cache_path_effects]

/-- C2 witness: a cache hit at the derived path returns the stored list
without detection. -/
theorem c2_witness :
    detect_scenes "/videos" "trip.mp4" mtimeOld true staleFS [⟨1, 2⟩] true =
      ([⟨0, 5⟩],
       get_cache_path_effects "/videos" "trip.mp4" ++
         [Effect.cacheRead (get_cache_path "/videos" "trip.mp4"
            mtimeOld)]) :=
  (c2_amended_cache_key "/videos" "trip.mp4" mtimeOld staleFS [⟨1, 2⟩]
    true).1 [⟨0, 5⟩] (by simp [staleFS])

/-- C1: the per-scene renderer skips every scene whose duration is under 1
second, clamps every over-long scene by setting its end to
`start + max_clip`, and produces at most one output per detected scene; in
the spec's scenario — 3 scenes of durations 0.5s, 8s and 20s with
`max_clip = 12` and every qualifying render succeeding — exactly 2 clips
are produced, the first scene skipped as too short and the third truncated
to 12 seconds measured from its detected start. -/
theorem c1_skip_clamp_and_scenario :
    (∀ (p : Params) (env : VideoEnv) (scenes : List Scene),
      (process_video p env scenes).length ≤ scenes.length) ∧
    (∀ (p : Params) (env : VideoEnv) (scenes : List Scene) (i : ℕ)
       (h : i < scenes.length),
      (env.outputExists i && p.use_cache) = false →
      (scenes.get ⟨i, h⟩).stop - (scenes.get ⟨i, h⟩).start < 1 →
      i ∉ process_video p env scenes) ∧
    (∀ (p : Params) (env : VideoEnv) (i : ℕ) (sc : Scene)
       (c : RenderedClip),
      sceneStep p env i sc = SceneOutcome.rendered c →
      sc.stop - sc.start > p.max_clip →
      c.stop = sc.start + p.max_clip) ∧
    (process_video scenarioParams scenarioEnv scenarioScenes = [1, 2] ∧
     sceneStep scenarioParams scenarioEnv 0 ⟨0, 1/2⟩ =
       SceneOutcome.skippedShort ∧
     sceneStep scenarioParams scenarioEnv 2 ⟨10, 30⟩ =
       SceneOutcome.rendered scenarioClip3 ∧
     scenarioClip3.stop - scenarioClip3.start = 12) := by
  refine ⟨?_, ?_, ?_, ?_, ?_, ?_, ?_⟩
  · intro p env scenes
    exact renderLoop_length_le p env scenes 0
  · intro p env scenes i h hnc hshort hmem
    rcases (mem_renderLoop_iff p env i scenes 0).mp hmem with ⟨j, hj, ho, he⟩
    have hij : j = i := by omega
    subst hij
    simp only [Nat.zero_add] at he
    rw [sceneStep, if_neg (by simp [hnc]), if_pos hshort] at he
    simp [emitsOutput] at he
  · intro p env i sc c hstep hlong
    have h2 := (sceneStep_rendered_fields p env i sc c hstep).2.1
    rw [h2, clampEnd, if_pos hlong]
  · norm_num [process_video, renderLoop, sceneStep, scenarioParams,
      scenarioEnv, scenarioScenes, emitsOutput, clampEnd, process_audio,
      applyResize]
  · norm_num [sceneStep, scenarioParams, scenarioEnv]
  · norm_num [sceneStep, scenarioParams, scenarioEnv, scenarioClip3,
      clampEnd, process_audio, applyResize, min_def]
  · norm_num [scenarioClip3]

/-- C1 witness: in the scenario, the first (0.5s) scene is not among the
outputs. -/
theorem c1_witness :
    0 ∉ process_video scenarioParams scenarioEnv scenarioScenes :=
  c1_skip_clamp_and_scenario.2.1 scenarioParams scenarioEnv scenarioScenes 0
    (by norm_num [scenarioScenes])
    (by simp [scenarioEnv])
    (by norm_num [scenarioScenes])

/-- C8: every rendered clip's fade-in and fade-out are symmetric, and their
duration is the minimum of the configured fade duration and one quarter of
the clip's length, the length being measured after the under-1-second skip
(the scene was not short) and the max-duration clamp. -/
theorem c8_symmetric_quarter_capped_fade (p : Params) (env : VideoEnv)
    (i : ℕ) (sc : Scene) (c : RenderedClip)
    (h : sceneStep p env i sc = SceneOutcome.rendered c) :
    c.fadeOutDur = c.fadeInDur ∧
    c.fadeInDur = min p.fade ((c.stop - c.start) / 4) ∧
    c.stop - c.start = clampEnd p.max_clip sc - sc.start ∧
    ¬(sc.stop - sc.start < 1) := by
  rcases sceneStep_rendered_fields p env i sc c h with
    ⟨h1, h2, h3, h4, -, -, -, -⟩
  refine ⟨h4, ?_, by rw [h1, h2], ?_⟩
  · rw [h2, h1]
    exact h3
  · rw [sceneStep] at h
    by_cases hc1 : (env.outputExists i && p.use_cache) = true
    · rw [if_pos hc1] at h
      cases h
    · rw [if_neg hc1] at h
      by_cases hc2 : sc.stop - sc.start < 1
      · rw [if_pos hc2] at h
        cases h
      · exact hc2

/-- C8 witness: the third scenario scene's clip has symmetric 0.5s fades,
0.5 being the minimum of the configured fade and a quarter of its clamped
12s length. -/
theorem c8_witness :
    scenarioClip3.fadeOutDur = scenarioClip3.fadeInDur ∧
    scenarioClip3.fadeInDur =
      min scenarioParams.fade
        ((scenarioClip3.stop - scenarioClip3.start) / 4) ∧
    scenarioClip3.stop - scenarioClip3.start =
      clampEnd scenarioParams.max_clip ⟨10, 30⟩ -
        (Scene.mk 10 30).start ∧
    ¬((Scene.mk 10 30).stop - (Scene.mk 10 30).start < 1) :=
  c8_symmetric_quarter_capped_fade scenarioParams scenarioEnv 2 ⟨10, 30⟩
    scenarioClip3
    (by norm_num [sceneStep, scenarioParams, scenarioEnv, scenarioClip3,
      clampEnd, process_audio, applyResize, min_def])

/-- C3: a per-scene render failure is caught and that scene contributes no
output file, while the outputs for every other scene are exactly those of
the same run in which that scene's render succeeds — processing continues
and `process_video` still returns the other scenes' outputs. -/
theorem c3_render_failure_skips_only_that_scene (p : Params)
    (env : VideoEnv) (scenes : List Scene) (i : ℕ) (f : ℕ → Bool)
    (hfail : env.renderOk i = false)
    (hnoexist : env.outputExists i = false)
    (hagree : ∀ j, j ≠ i → f j = env.renderOk j) :
    i ∉ process_video p env scenes ∧
    ∀ j, j ≠ i →
      (j ∈ process_video p env scenes ↔
        j ∈ process_video p { env with renderOk := f } scenes) := by
  constructor
  · intro hmem
    rcases (mem_renderLoop_iff p env i scenes 0).mp hmem with ⟨j, hj, ho, he⟩
    have hij : j = i := by omega
    subst hij
    simp only [Nat.zero_add] at he
    rw [sceneStep, if_neg (by simp [hnoexist])] at he
    by_cases h2 : (scenes.get ⟨j, hj⟩).stop - (scenes.get ⟨j, hj⟩).start < 1
    · rw [if_pos h2] at he
      simp [emitsOutput] at he
    · rw [if_neg h2, if_neg (by simp [hfail])] at he
      simp [emitsOutput] at he
  · intro j hji
    unfold process_video
    rw [mem_renderLoop_iff, mem_renderLoop_iff]
    constructor
    · rintro ⟨k, hk, ho, he⟩
      refine ⟨k, hk, ho, ?_⟩
      rw [sceneStep_update_renderOk p env f (0 + k) _
        (hagree (0 + k) (by omega))]
      exact he
    · rintro ⟨k, hk, ho, he⟩
      refine ⟨k, hk, ho, ?_⟩
      rw [sceneStep_update_renderOk p env f (0 + k) _
        (hagree (0 + k) (by omega))] at he
      exact he

/-- C3 witness: with scene index 1's render failing, index 1 is absent from
the outputs. -/
theorem c3_witness : 1 ∉ process_video scenarioParams fxEnvFail fxScenes :=
  (c3_render_failure_skips_only_that_scene scenarioParams fxEnvFail fxScenes
    1 (fun _ => true)
    (by simp [fxEnvFail])
    (by simp [fxEnvFail, scenarioEnv])
    (fun j hj => by simp [fxEnvFail, scenarioEnv, hj])).1

/-- C4: a scene whose output file already exists on disk while caching is
enabled is not rendered — its outcome is `cached` irrespective of the
render environment, with no content check — but its index still joins the
returned output list, and `process_directory` counts it in the clip
total. -/
theorem c4_existing_output_counted (p : Params) (env : VideoEnv)
    (scenes : List Scene) (i : ℕ) (h : i < scenes.length)
    (hex : env.outputExists i = true) (hcache : p.use_cache = true) :
    sceneStep p env i (scenes.get ⟨i, h⟩) = SceneOutcome.cached ∧
    i ∈ process_video p env scenes ∧
    process_directory p [(env, scenes)] =
      (process_video p env scenes).length := by
  have hstep : sceneStep p env i (scenes.get ⟨i, h⟩) =
      SceneOutcome.cached := by
    rw [sceneStep, if_pos (by simp [hex, hcache])]
  refine ⟨hstep, ?_, by simp [process_directory]⟩
  exact (mem_renderLoop_iff p env i scenes 0).mpr
    ⟨i, h, (Nat.zero_add i).symm,
     by simp only [Nat.zero_add]; rw [hstep]; rfl⟩

/-- C4 witness: with the output for scene index 0 already on disk, index 0
is in the returned outputs without being rendered. -/
theorem c4_witness :
    0 ∈ process_video scenarioParams fxEnvExists fxScenes :=
  (c4_existing_output_counted scenarioParams fxEnvExists fxScenes 0
    (by simp [fxScenes])
    (by simp [fxEnvExists])
    (by simp [scenarioParams])).2.1

/-- C9: resolution `1080p` maps to a target of exactly 1920×1080 and every
rendered clip whose dimensions differ from the target is resized to it, so
outputs are exactly 1920×1080; `original` maps to no target resolution and
no resize is ever performed. -/
theorem c9_resolution_mapping_and_resize :
    resolutionDims Resolution.p1080 = some (1920, 1080) ∧
    resolutionDims Resolution.original = none ∧
    (∀ w h, (applyResize w h (resolutionDims Resolution.p1080)).1 =
      (1920, 1080)) ∧
    (∀ w h, ((applyResize w h (some (1920, 1080))).2 = true ↔
      ¬(w = 1920 ∧ h = 1080))) ∧
    (∀ w h, applyResize w h (resolutionDims Resolution.original) =
      ((w, h), false)) ∧
    (∀ (p : Params) (env : VideoEnv) (i : ℕ) (sc : Scene)
       (c : RenderedClip),
      p.resolution = resolutionDims Resolution.p1080 →
      sceneStep p env i sc = SceneOutcome.rendered c →
      c.width = 1920 ∧ c.height = 1080) ∧
    (∀ (p : Params) (env : VideoEnv) (i : ℕ) (sc : Scene)
       (c : RenderedClip),
      p.resolution = resolutionDims Resolution.original →
      sceneStep p env i sc = SceneOutcome.rendered c →
      c.width = env.srcW ∧ c.height = env.srcH ∧ c.resized = false) := by
  have key : ∀ w h : ℕ,
      (applyResize w h (some (1920, 1080))).1 = (1920, 1080) := by
    intro w h
    by_cases hw : w = 1920 ∧ h = 1080
    · simp [applyResize, hw.1, hw.2]
    · simp only [applyResize]
      rw [if_pos]
      tauto
  refine ⟨rfl, rfl, ?_, ?_, ?_, ?_, ?_⟩
  · intro w h
    exact key w h
  · intro w h
    by_cases hw : w = 1920 ∧ h = 1080
    · simp [applyResize, hw.1, hw.2]
    · simp only [applyResize]
      rw [if_pos (by tauto)]
      simpa using hw
  · intro w h
    simp [resolutionDims, applyResize]
  · intro p env i sc c hres hstep
    rcases sceneStep_rendered_fields p env i sc c hstep with
      ⟨-, -, -, -, -, h6, h7, -⟩
    rw [hres] at h6 h7
    have := key env.srcW env.srcH
    constructor
    · rw [h6]
      rw [show resolutionDims Resolution.p1080 = some (1920, 1080) from rfl]
      exact congrArg Prod.fst this
    · rw [h7]
      rw [show resolutionDims Resolution.p1080 = some (1920, 1080) from rfl]
      exact congrArg Prod.snd this
  · intro p env i sc c hres hstep
    rcases sceneStep_rendered_fields p env i sc c hstep with
      ⟨-, -, -, -, -, h6, h7, h8⟩
    rw [hres] at h6 h7 h8
    refine ⟨?_, ?_, ?_⟩
    · rw [h6]
      rfl
    · rw [h7]
      rfl
    · rw [h8]
      rfl

/-- C9 witness: the third scenario scene rendered with target 1080p comes
out 1920×1080 (the 1280×720 source differs, so it is resized). -/
theorem c9_witness : fxClip1080.width = 1920 ∧ fxClip1080.height = 1080 :=
  c9_resolution_mapping_and_resize.2.2.2.2.2.1 fx1080Params scenarioEnv 2
    ⟨10, 30⟩ fxClip1080
    (by simp [fx1080Params, scenarioParams])
    (by norm_num [sceneStep, fx1080Params, scenarioParams, scenarioEnv,
      fxClip1080, scenarioClip3, clampEnd, process_audio, applyResize,
      resolutionDims, min_def])

/-- C5: with the mute flag set, the mixer performs no dialogue processing —
the returned audio derives solely from the music track, composited at full
weight 1.0; with no music supplied and the original muted it returns
`None`, and the rendered clip is then written without an audio track. -/
theorem c5_mute_music_only (va m : AudioStream) (volume : ℚ) :
    process_audio (some va) (some m) volume true =
      AudioResult.composite [musicMixStream m volume true] ∧
    outerWeight (musicMixStream m volume true) = some 1 ∧
    (∀ jv jm, jv ≠ jm →
      ∀ c ∈ resultStreams
        (process_audio (some (AudioStream.source jv))
          (some (AudioStream.source jm)) volume true),
        usesSource jv c = false) ∧
    process_audio none (some m) volume true =
      AudioResult.single
        (AudioStream.normalize (AudioStream.volumex m volume) (-20)) ∧
    (∀ vA : Option AudioStream,
      process_audio vA none volume true = AudioResult.nothing) ∧
    (∀ (p : Params) (env : VideoEnv) (i : ℕ) (sc : Scene)
       (c : RenderedClip),
      p.mute_original = true → env.music = none →
      sceneStep p env i sc = SceneOutcome.rendered c →
      attachesAudio c.audio = false) := by
  refine ⟨?_, rfl, ?_, rfl, ?_, ?_⟩
  · simp [process_audio, musicMixStream]
  · intro jv jm hne c hc
    have hbeq : (jv == jm) = false := by
      cases hb : jv == jm
      · rfl
      · exact absurd (by simpa using hb) hne
    simp [process_audio, resultStreams] at hc
    subst hc
    simp [usesSource, hbeq]
  · intro vA
    cases vA <;> simp [process_audio]
  · intro p env i sc c hmute hmusic hstep
    have h5 := (sceneStep_rendered_fields p env i sc c hstep).2.2.2.2.1
    rw [h5, hmute, hmusic]
    cases env.videoAudio <;> simp [process_audio, attachesAudio]

/-- C5 witness: in the muted scenario with no music, the rendered clip
carries no audio track. -/
theorem c5_witness : attachesAudio scenarioClip3.audio = false :=
  (c5_mute_music_only (AudioStream.source 0) (AudioStream.source 1)
    (1/5)).2.2.2.2.2 fxMuteParams scenarioEnv 2 ⟨10, 30⟩ scenarioClip3
    (by simp [fxMuteParams, scenarioParams])
    (by simp [scenarioEnv])
    (by norm_num [sceneStep, fxMuteParams, scenarioParams, scenarioEnv,
      scenarioClip3, clampEnd, process_audio, applyResize, min_def])

/-- C6 counterexample: when the input video has no original audio track and
music is supplied, `process_audio` returns the music alone with NO
high-pass filter applied — the filter runs only on the
with-original-audio path, contradicting the claim's "including the case
where the input video has no original audio track". -/
theorem c6_counterexample :
    process_audio none (some (AudioStream.source 0)) (1/5) false =
      AudioResult.single
        (AudioStream.normalize
          (AudioStream.volumex (AudioStream.source 0) (1/5)) (-20)) ∧
    usesHighpass
      (AudioStream.normalize
        (AudioStream.volumex (AudioStream.source 0) (1/5)) (-20)) =
      false :=
  ⟨rfl, rfl⟩

/-- C6 (amended): whenever the input video has an original audio track and
music is supplied, the music stream in the returned composite has had the
high-pass filter applied before compositing; when the video has no
original audio track, the music is returned alone, only volume-scaled and
loudness-normalized, with no high-pass filter added on top of the input
stream. -/
theorem c6_amended_highpass_only_with_original (va m : AudioStream)
    (volume : ℚ) (mute : Bool) :
    (∃ cs, process_audio (some va) (some m) volume mute =
        AudioResult.composite cs ∧
      musicMixStream m volume mute ∈ cs ∧
      usesHighpass (musicMixStream m volume mute) = true) ∧
    process_audio none (some m) volume mute =
      AudioResult.single
        (AudioStream.normalize (AudioStream.volumex m volume) (-20)) ∧
    usesHighpass
      (AudioStream.normalize (AudioStream.volumex m volume) (-20)) =
      usesHighpass m := by
  refine ⟨?_, rfl, by simp [usesHighpass]⟩
  cases mute
  · exact ⟨[dialogueMixStream va, musicMixStream m volume false],
      by simp [process_audio, musicMixStream, dialogueMixStream],
      by simp,
      by simp [musicMixStream, usesHighpass]⟩
  · exact ⟨[musicMixStream m volume true],
      by simp [process_audio, musicMixStream],
      by simp,
      by simp [musicMixStream, usesHighpass]⟩

end ClipBot
